import Mathlib

/-!
Shallow embedding of `src/bq_agent/agent.py` (a BigQuery tool-calling agent).

Modelling conventions:
* Python scalar values that flow through the tools are the inductive `PyVal`.
  Python's subclassing that matters for `isinstance` dispatch is encoded in
  the `is_int` / `is_date` predicates (`bool` is a subclass of `int`,
  `datetime.datetime` is a subclass of `datetime.date`).
* Dates and times are plain records; `isoformat` follows CPython's output for
  values with zero microseconds and no timezone (the granularity the claims
  need).  A `Decimal` carries its textual representation, which is what
  `str(Decimal)` returns.
* Each tool takes the warehouse interaction as an explicit oracle argument
  (`Except`/outcome values): `.error`/`.raise` is the underlying client call
  raising, `.ok` is it returning.  A tool's run records whether a client was
  constructed, the request it issued (`none` = no network call), and the
  Python-level result (`returned` a value vs `raised` an exception).
* Module-level configuration loading (`os.getenv` + the truthiness check +
  `raise ValueError`) is `moduleInit` over an environment function.
-/

/-- Calendar date, mirroring `datetime.date`. -/
structure PyDate where
  year : Nat
  month : Nat
  day : Nat
deriving DecidableEq, Repr

/-- Wall-clock time with zero microseconds, mirroring `datetime.time`. -/
structure PyTime where
  hour : Nat
  minute : Nat
  second : Nat
deriving DecidableEq, Repr

/-- Naive datetime with zero microseconds, mirroring `datetime.datetime`. -/
structure PyDateTime where
  date : PyDate
  time : PyTime
deriving DecidableEq, Repr

/-- Zero-pad a numeral to two digits, as CPython's isoformat does. -/
def pad2 (n : Nat) : String :=
  if n < 10 then "0" ++ toString n else toString n

/-- Zero-pad a year to four digits, as CPython's isoformat does. -/
def pad4 (n : Nat) : String :=
  if n < 10 then "000" ++ toString n
  else if n < 100 then "00" ++ toString n
  else if n < 1000 then "0" ++ toString n
  else toString n

/-- `datetime.date.isoformat`: YYYY-MM-DD. -/
def PyDate.isoformat (d : PyDate) : String :=
  pad4 d.year ++ "-" ++ pad2 d.month ++ "-" ++ pad2 d.day

/-- `datetime.time.isoformat` for zero microseconds: HH:MM:SS. -/
def PyTime.isoformat (t : PyTime) : String :=
  pad2 t.hour ++ ":" ++ pad2 t.minute ++ ":" ++ pad2 t.second

/-- `datetime.datetime.isoformat` for zero microseconds, no tz. -/
def PyDateTime.isoformat (dt : PyDateTime) : String :=
  dt.date.isoformat ++ "T" ++ dt.time.isoformat

/-- A Python runtime value of one of the scalar types the agent handles.
`vOther` carries the `type(val).__name__` of any other runtime type (list,
dict, NoneType is `vNone`, ...). -/
inductive PyVal where
  | vStr (s : String)
  | vBytes (b : List Nat)
  | vInt (n : Int)
  | vFloat (text : String)
  | vBool (b : Bool)
  | vDatetime (dt : PyDateTime)
  | vDate (d : PyDate)
  | vTime (t : PyTime)
  | vDecimal (text : String)
  | vNone
  | vOther (tyname : String)
deriving DecidableEq, Repr

/-- `type(val).__name__`. -/
def py_type_name : PyVal → String
  | .vStr _ => "str"
  | .vBytes _ => "bytes"
  | .vInt _ => "int"
  | .vFloat _ => "float"
  | .vBool _ => "bool"
  | .vDatetime _ => "datetime"
  | .vDate _ => "date"
  | .vTime _ => "time"
  | .vDecimal _ => "Decimal"
  | .vNone => "NoneType"
  | .vOther n => n

/-- `isinstance(val, str)`. -/
def is_str : PyVal → Bool
  | .vStr _ => true
  | _ => false

/-- `isinstance(val, bytes)`. -/
def is_bytes : PyVal → Bool
  | .vBytes _ => true
  | _ => false

/-- `isinstance(val, int)`.  In Python `bool` is a subclass of `int`, so
booleans satisfy this check too. -/
def is_int : PyVal → Bool
  | .vInt _ => true
  | .vBool _ => true
  | _ => false

/-- `isinstance(val, float)`. -/
def is_float : PyVal → Bool
  | .vFloat _ => true
  | _ => false

/-- `isinstance(val, bool)`. -/
def is_bool : PyVal → Bool
  | .vBool _ => true
  | _ => false

/-- `isinstance(val, datetime.datetime)`. -/
def is_datetime : PyVal → Bool
  | .vDatetime _ => true
  | _ => false

/-- `isinstance(val, datetime.date)`.  In Python `datetime.datetime` is a
subclass of `datetime.date`, so datetimes satisfy this check too. -/
def is_date : PyVal → Bool
  | .vDate _ => true
  | .vDatetime _ => true
  | _ => false

/-- `isinstance(val, datetime.time)`. -/
def is_time : PyVal → Bool
  | .vTime _ => true
  | _ => false

/-- `isinstance(val, Decimal)`. -/
def is_decimal : PyVal → Bool
  | .vDecimal _ => true
  | _ => false

/-- The `bq_type` inference chain of `update_bigquery_records`
(src/bq_agent/agent.py lines 205-214), translated branch for branch.
`none` is `bq_type is None`, which triggers the `TypeError`.
Note the `is_int` branch precedes the `is_bool` branch, and in Python every
`bool` is an `int`, so booleans take the INT64 branch and the BOOL branch is
unreachable. -/
def infer_bq_type (val : PyVal) : Option String :=
  if is_str val then some "STRING"
  else if is_bytes val then some "BYTES"
  else if is_int val then some "INT64"
  else if is_float val then some "FLOAT64"
  else if is_bool val then some "BOOL"
  else if is_datetime val then some "TIMESTAMP"
  else if is_date val then some "DATE"
  else if is_time val then some "TIME"
  else if is_decimal val then some "NUMERIC"
  else none

/-- A result row / an input row: insertion-ordered mapping from column name
to value, as a Python dict's `.items()` order. -/
abbrev Row : Type := List (String × PyVal)

/-- Value normalization in `run_bigquery_sql_query` (lines 104-110):
`isinstance(value, (datetime.date, datetime.datetime))` branches to
`value.isoformat()`, `isinstance(value, Decimal)` branches to `str(value)`,
everything else is kept as is.  Note `datetime.time` is NOT in the tuple. -/
def processQueryValue : PyVal → PyVal
  | .vDate d => .vStr d.isoformat
  | .vDatetime dt => .vStr dt.isoformat
  | .vDecimal s => .vStr s
  | v => v

/-- Value normalization in `insert_bigquery_rows` (lines 148-154):
`isinstance(value, Decimal)` branches to `str(value)`,
`isinstance(value, (datetime.date, datetime.datetime, datetime.time))`
branches to `value.isoformat()`, everything else is kept as is. -/
def processInsertValue : PyVal → PyVal
  | .vDecimal s => .vStr s
  | .vDate d => .vStr d.isoformat
  | .vDatetime dt => .vStr dt.isoformat
  | .vTime t => .vStr t.isoformat
  | v => v

/-- Does a value have one of the types `run_bigquery_sql_query` converts
(native date, datetime or Decimal)? -/
def isDateDatetimeOrDecimal : PyVal → Bool
  | .vDate _ => true
  | .vDatetime _ => true
  | .vDecimal _ => true
  | _ => false

/-- The module-level configuration: `DEFAULT_PROJECT_ID` / `DEFAULT_DATASET_ID`
after the load-time check has passed.  Every tool closes over these globals;
here they are passed explicitly. -/
structure ModuleConfig where
  project : String
  dataset : String
deriving DecidableEq, Repr

/-- Python truthiness of an `os.getenv` result: `None` and the empty string
are falsy. -/
def pyTruthy : Option String → Bool
  | none => false
  | some s => !(s == "")

/-- Module load (src/bq_agent/agent.py lines 15-21): read the two
identifiers from the environment; `raise ValueError(...)` (the `.error`
branch) when either is unset or empty, before any tool is defined. -/
def moduleInit (env : String → Option String) : Except String ModuleConfig :=
  let p := env "DEFAULT_PROJECT_ID"
  let d := env "DEFAULT_DATASET_ID"
  if !(pyTruthy p) || !(pyTruthy d) then
    .error "DEFAULT_PROJECT_ID and DEFAULT_DATASET_ID must be set in the .env file or environment."
  else
    .ok ⟨p.getD "", d.getD ""⟩

/-- What a Python function call does at its boundary: return a value or let
an exception escape. -/
inductive PyResult where
  | returned (s : String)
  | raised (exc : String)
deriving DecidableEq, Repr

/-- Outcome of a warehouse DML job as the code observes it:
`ok errors num_dml_affected_rows`, or the client call raising. -/
inductive JobOutcome where
  | ok (errors : List String) (num_dml_affected_rows : Nat)
  | raise (msg : String)

/-- A schema field as returned by the client (`field.name`,
`field.field_type`, `field.mode`). -/
structure SchemaField where
  name : String
  field_type : String
  mode : String
deriving DecidableEq, Repr

/-- `list_dataset_tables` (lines 26-47): the oracle is the
client-construction + `list_tables` + comprehension inside the `try`;
any exception is swallowed and `[]` returned.  An `ok` empty list also
returns `[]` (after printing). -/
def list_dataset_tables (_cfg : ModuleConfig)
    (call : Except String (List String)) : List String :=
  match call with
  | .error _ => []
  | .ok table_ids => if table_ids.isEmpty then [] else table_ids

/-- `get_bigquery_table_schema` (lines 49-80): maps each schema field to a
`name`/`type`/`mode` record; any exception is swallowed and `[]` returned. -/
def get_bigquery_table_schema (_cfg : ModuleConfig) (_table_id : String)
    (call : Except String (List SchemaField)) : List (String × String × String) :=
  match call with
  | .error _ => []
  | .ok schema =>
    let schema_info := schema.map (fun f => (f.name, f.field_type, f.mode))
    if schema_info.isEmpty then [] else schema_info

/-- `run_bigquery_sql_query` (lines 82-119): on a successful job, normalize
each row value with `processQueryValue`; any exception is swallowed and `[]`
returned. -/
def run_bigquery_sql_query (_cfg : ModuleConfig) (_query : String)
    (call : Except String (List Row)) : List Row :=
  match call with
  | .error _ => []
  | .ok results =>
    let processed_rows : List Row :=
      results.map (fun row => row.map (fun kv => (kv.1, processQueryValue kv.2)))
    if processed_rows.isEmpty then [] else processed_rows

/-- Trace of one `insert_bigquery_rows` run: whether a client was
constructed, the row payload sent to `insert_rows_json` (`none` = no network
call), and the returned string. -/
structure InsertRun where
  clientCreated : Bool
  request : Option (List Row)
  result : PyResult
deriving Repr

/-- Outcome of `insert_rows_json`: a list of per-row error entries
(`index`, rendered errors), or the call raising. -/
inductive InsertOutcome where
  | ok (errors : List (Nat × String))
  | raise (msg : String)

/-- `insert_bigquery_rows` (lines 121-166), translated clause for clause:
empty `rows` returns the literal error before any client is constructed;
otherwise the rows are normalized with `processInsertValue` and sent; the
first batch of per-row errors is reported verbatim; any exception becomes an
error string. -/
def insert_bigquery_rows (_cfg : ModuleConfig) (table_id : String)
    (rows : List Row) (api : List Row → InsertOutcome) : InsertRun :=
  if rows.isEmpty then
    ⟨false, none, .returned "Error: 'rows' list cannot be empty."⟩
  else
    let processed_rows_for_json : List Row :=
      rows.map (fun row => row.map (fun kv => (kv.1, processInsertValue kv.2)))
    match api processed_rows_for_json with
    | .raise msg =>
      ⟨true, some processed_rows_for_json,
        .returned ("Error inserting rows into table " ++ table_id ++ ": " ++ msg)⟩
    | .ok errors =>
      if errors.isEmpty then
        ⟨true, some processed_rows_for_json,
          .returned ("Successfully inserted " ++ toString rows.length
            ++ " rows into table " ++ table_id ++ ".")⟩
      else
        let error_details := errors.map
          (fun e => "Row index " ++ toString e.1 ++ ": " ++ e.2)
        ⟨true, some processed_rows_for_json,
          .returned ("Error inserting rows into table " ++ table_id ++ ": "
            ++ String.intercalate "; " error_details)⟩

/-- `bigquery.ScalarQueryParameter(param_name, bq_type, val)`. -/
structure ScalarQueryParameter where
  name : String
  type_ : String
  value : PyVal
deriving DecidableEq, Repr

/-- The parameterized query `update_bigquery_records` submits: the SQL text
and the bound typed parameters of its `QueryJobConfig`. -/
structure UpdateCall where
  sql : String
  params : List ScalarQueryParameter
deriving DecidableEq, Repr

/-- Trace of one `update_bigquery_records` run. -/
structure UpdateRun where
  clientCreated : Bool
  request : Option UpdateCall
  result : PyResult
deriving Repr

/-- The message of the `TypeError` raised at lines 217-221. -/
def typeErrorMsg (tyname col : String) : String :=
  "Unsupported data type '" ++ tyname ++ "' for column '" ++ col ++ "'. "
    ++ "Supported types: str, bytes, int, float, bool, datetime.datetime, "
    ++ "datetime.date, datetime.time, Decimal."

/-- The `for idx, (col, val) in enumerate(set_values.items())` loop of
`update_bigquery_records` (lines 199-222): accumulate set clauses and typed
parameters; the first value whose type has no mapping raises `TypeError`
(the `.error` branch), aborting the loop before the SQL statement is
assembled. -/
def buildSetParamsAux (idx : Nat) :
    List (String × PyVal) → Except (String × String) (List String × List ScalarQueryParameter)
  | [] => .ok ([], [])
  | (col, val) :: rest =>
    let param_name := "p_set_val_" ++ toString idx
    let clause := "`" ++ col ++ "` = @" ++ param_name
    match infer_bq_type val with
    | none => .error (py_type_name val, col)
    | some bq_type =>
      match buildSetParamsAux (idx + 1) rest with
      | .error e => .error e
      | .ok (clauses, params) =>
        .ok (clause :: clauses, ⟨param_name, bq_type, val⟩ :: params)

/-- `update_bigquery_records` (lines 168-242), translated clause for clause.
The client is constructed first (line 191), then the empty-`set_values`
check returns the literal error string; a `TypeError` from the inference
loop is caught by the enclosing `except Exception` (lines 241-242) and
rendered as an error string — it never escapes; otherwise the UPDATE
statement is assembled and submitted with the typed parameters. -/
def update_bigquery_records (cfg : ModuleConfig) (table_id : String)
    (set_values : List (String × PyVal)) (where_clause : String)
    (api : UpdateCall → JobOutcome) : UpdateRun :=
  if set_values.isEmpty then
    ⟨true, none, .returned "Error: set_values dictionary cannot be empty."⟩
  else
    match buildSetParamsAux 0 set_values with
    | .error (tyname, col) =>
      ⟨true, none,
        .returned ("Error updating table " ++ table_id ++ ": " ++ typeErrorMsg tyname col)⟩
    | .ok (set_clauses, query_params) =>
      let sql_set_clause := String.intercalate ", " set_clauses
      let full_table_name :=
        "`" ++ cfg.project ++ "." ++ cfg.dataset ++ "." ++ table_id ++ "`"
      let query := "UPDATE " ++ full_table_name ++ " SET " ++ sql_set_clause
        ++ " WHERE " ++ where_clause
      let call : UpdateCall := ⟨query, query_params⟩
      match api call with
      | .raise msg =>
        ⟨true, some call,
          .returned ("Error updating table " ++ table_id ++ ": " ++ msg)⟩
      | .ok errors n =>
        if errors.isEmpty then
          ⟨true, some call,
            .returned ("Successfully updated " ++ toString n
              ++ " rows in table " ++ table_id ++ ".")⟩
        else
          ⟨true, some call,
            .returned ("Error updating table " ++ table_id ++ ": "
              ++ String.intercalate "; " errors)⟩

/-- Python `str.strip()` whitespace for the ASCII range. -/
def isPySpace (c : Char) : Bool :=
  c == ' ' || c == '\t' || c == '\n' || c == '\r' || c == '\x0b' || c == '\x0c'

/-- Python `str.strip()`: drop whitespace from both ends. -/
def pyStrip (s : String) : String :=
  ⟨((s.data.dropWhile isPySpace).reverse.dropWhile isPySpace).reverse⟩

/-- Trace of one `delete_bigquery_records` run: the request is the DELETE
SQL text (`none` = no network call). -/
structure DeleteRun where
  clientCreated : Bool
  request : Option String
  result : PyResult
deriving Repr

/-- `delete_bigquery_records` (lines 244-282): an empty or all-whitespace
`where_clause` returns the literal safety refusal before any client is
constructed; otherwise the DELETE is submitted with the clause concatenated
verbatim. -/
def delete_bigquery_records (cfg : ModuleConfig) (table_id : String)
    (where_clause : String) (api : String → JobOutcome) : DeleteRun :=
  if where_clause == "" || pyStrip where_clause == "" then
    ⟨false, none,
      .returned ("Error: where_clause cannot be empty. To delete all rows, "
        ++ "explicitly provide a condition like '1=1' (use with extreme caution).")⟩
  else
    let full_table_name :=
      "`" ++ cfg.project ++ "." ++ cfg.dataset ++ "." ++ table_id ++ "`"
    let query := "DELETE FROM " ++ full_table_name ++ " WHERE " ++ where_clause
    match api query with
    | .raise msg =>
      ⟨true, some query,
        .returned ("Error deleting from table " ++ table_id ++ ": " ++ msg)⟩
    | .ok errors n =>
      if errors.isEmpty then
        ⟨true, some query,
          .returned ("Successfully deleted " ++ toString n
            ++ " rows from table " ++ table_id ++ ".")⟩
      else
        ⟨true, some query,
          .returned ("Error deleting from table " ++ table_id ++ ": "
            ++ String.intercalate "; " errors)⟩

/-! ## Helper characterizations of the update builder loop -/

/-- The set clauses the enumerate loop produces, starting at index `idx`. -/
def setClauses : Nat → List (String × PyVal) → List String
  | _, [] => []
  | idx, (col, _) :: rest =>
    ("`" ++ col ++ "` = @p_set_val_" ++ toString idx) :: setClauses (idx + 1) rest

/-- The typed parameters the enumerate loop produces, starting at `idx`. -/
def setParams : Nat → List (String × PyVal) → List ScalarQueryParameter
  | _, [] => []
  | idx, (_col, val) :: rest =>
    ⟨"p_set_val_" ++ toString idx, (infer_bq_type val).getD "", val⟩ :: setParams (idx + 1) rest

/-- The first entry of `set_values` whose value has no `bq_type` mapping
(the one whose `TypeError` aborts the loop), as (type name, column). -/
def firstUnsupported : List (String × PyVal) → Option (String × String)
  | [] => none
  | (col, val) :: rest =>
    match infer_bq_type val with
    | none => some (py_type_name val, col)
    | some _ => firstUnsupported rest

lemma buildSetParamsAux_ok (svs : List (String × PyVal)) :
    ∀ idx, (∀ kv ∈ svs, (infer_bq_type kv.2).isSome) →
    buildSetParamsAux idx svs = .ok (setClauses idx svs, setParams idx svs) := by
  induction svs with
  | nil => intro idx _; rfl
  | cons hd tl ih =>
    intro idx h
    obtain ⟨col, val⟩ := hd
    have h1 : (infer_bq_type val).isSome := h (col, val) (by simp)
    cases h2 : infer_bq_type val with
    | none => rw [h2] at h1; simp at h1
    | some bq =>
      have htl := ih (idx + 1) (fun kv hkv => h kv (List.mem_cons_of_mem _ hkv))
      simp only [buildSetParamsAux, h2, htl, setClauses, setParams, String.append_assoc]
      rfl

lemma buildSetParamsAux_error (svs : List (String × PyVal)) :
    ∀ idx tyname col, firstUnsupported svs = some (tyname, col) →
    buildSetParamsAux idx svs = .error (tyname, col) := by
  induction svs with
  | nil => intro idx tyname col h; simp [firstUnsupported] at h
  | cons hd tl ih =>
    intro idx tyname col h
    obtain ⟨c, v⟩ := hd
    cases h2 : infer_bq_type v with
    | none =>
      simp [firstUnsupported, h2] at h
      simp [buildSetParamsAux, h2, h.1, h.2]
    | some bq =>
      simp [firstUnsupported, h2] at h
      simp [buildSetParamsAux, h2, ih idx.succ tyname col h]

lemma setClauses_keys (l : List (String × PyVal)) :
    ∀ l' : List (String × PyVal), l.map Prod.fst = l'.map Prod.fst →
    ∀ idx, setClauses idx l = setClauses idx l' := by
  induction l with
  | nil =>
    intro l' h idx
    cases l' with
    | nil => rfl
    | cons a b => simp at h
  | cons hd tl ih =>
    intro l' h idx
    cases l' with
    | nil => simp at h
    | cons hd' tl' =>
      obtain ⟨c, v⟩ := hd
      obtain ⟨c', v'⟩ := hd'
      simp at h
      simp [setClauses, h.1, ih tl' h.2 (idx + 1)]

lemma update_request_of_ok (cfg : ModuleConfig) (table_id : String)
    (svs : List (String × PyVal)) (w : String) (api : UpdateCall → JobOutcome)
    (clauses : List String) (params : List ScalarQueryParameter)
    (hne : svs.isEmpty = false) (hb : buildSetParamsAux 0 svs = .ok (clauses, params)) :
    (update_bigquery_records cfg table_id svs w api).request =
      some ⟨"UPDATE `" ++ cfg.project ++ "." ++ cfg.dataset ++ "." ++ table_id
        ++ "` SET " ++ String.intercalate ", " clauses ++ " WHERE " ++ w, params⟩ := by
  unfold update_bigquery_records
  simp only [hne, Bool.false_eq_true, if_false, hb]
  split <;> (try split) <;> (simp only [String.append_assoc]; rfl)

lemma insert_request_nonempty (cfg : ModuleConfig) (table_id : String)
    (rows : List Row) (api : List Row → InsertOutcome) (h : rows.isEmpty = false) :
    (insert_bigquery_rows cfg table_id rows api).request =
      some (rows.map (fun row => row.map (fun kv => (kv.1, processInsertValue kv.2)))) := by
  unfold insert_bigquery_rows
  simp only [h, Bool.false_eq_true, if_false]
  split <;> (try split) <;> rfl

lemma ifEmptyElse {α : Type} (l : List α) : (if l.isEmpty then [] else l) = l := by
  cases l <;> rfl

lemma pyTruthy_getD (o : Option String) (h : pyTruthy o = true) : o.getD "" ≠ "" := by
  cases o with
  | none => simp [pyTruthy] at h
  | some s => simpa [pyTruthy] using h

lemma dropWhile_of_all {p : Char → Bool} :
    ∀ l : List Char, l.all p = true → l.dropWhile p = [] := by
  intro l
  induction l with
  | nil => intro _; rfl
  | cons c cs ih =>
    intro h
    simp only [List.all_cons, Bool.and_eq_true] at h
    simp [List.dropWhile_cons, h.1, ih h.2]

/-! ## The claims -/

/-- C1 (counterexample): on a concrete `set_values` holding a value of an
unsupported runtime type (a Python `list`), `update_bigquery_records` does
NOT let the `TypeError` propagate: it returns an error string (the broad
`except Exception` at lines 241-242 catches the raise), so the claim that
the exception surfaces uncaught is false.  No SQL statement is assembled and
no query is issued (`request = none`). -/
theorem C1_counterexample :
    update_bigquery_records ⟨"proj", "ds"⟩ "t" [("c", PyVal.vOther "list")] "1=1"
        (fun _ => JobOutcome.ok [] 0)
      = ⟨true, none, PyResult.returned
          "Error updating table t: Unsupported data type 'list' for column 'c'. Supported types: str, bytes, int, float, bool, datetime.datetime, datetime.date, datetime.time, Decimal."⟩ := by
  rfl

/-- C1 (amended): whenever some value of a non-empty `set_values` has an
unsupported runtime type, `update_bigquery_records` raises a `TypeError` at
the first such entry — before assembling the SQL statement or issuing any
network call (`request = none`) — but the enclosing `except Exception`
catches it and the function RETURNS the string
`"Error updating table <table_id>: <TypeError message>"` to the caller; the
exception does not propagate. -/
theorem C1_type_error_is_caught (cfg : ModuleConfig) (table_id : String)
    (set_values : List (String × PyVal)) (where_clause : String)
    (api : UpdateCall → JobOutcome) (tyname col : String)
    (h : firstUnsupported set_values = some (tyname, col)) :
    update_bigquery_records cfg table_id set_values where_clause api =
      ⟨true, none, PyResult.returned
        ("Error updating table " ++ table_id ++ ": " ++ typeErrorMsg tyname col)⟩ := by
  have hb := buildSetParamsAux_error set_values 0 tyname col h
  cases set_values with
  | nil => simp [firstUnsupported] at h
  | cons hd tl =>
    unfold update_bigquery_records
    simp only [List.isEmpty_cons, Bool.false_eq_true, if_false, hb]

/-- C1 (witness): the amended theorem applied at a concrete input. -/
theorem C1_witness :
    update_bigquery_records ⟨"proj", "ds"⟩ "t" [("c", PyVal.vOther "list")] "1=1"
        (fun _ => JobOutcome.ok [] 0)
      = ⟨true, none, PyResult.returned
          ("Error updating table " ++ "t" ++ ": " ++ typeErrorMsg "list" "c")⟩ :=
  C1_type_error_is_caught ⟨"proj", "ds"⟩ "t" [("c", PyVal.vOther "list")] "1=1"
    (fun _ => JobOutcome.ok [] 0) "list" "c" rfl

/-- C2 (code evaluated at the failing input): a `bool` value in `set_values`
is bound with declared type INT64, not BOOL — `isinstance(True, int)` holds
in Python (bool subclasses int) and the `int` branch precedes the `bool`
branch, so the `BOOL` branch of the inference chain is unreachable: no value
whatsoever is ever assigned type BOOL.  This contradicts the claimed
`bool -> BOOL` mapping (the other eight mappings do hold, per C3's params
characterization). -/
theorem C2_bool_binds_as_INT64 :
    infer_bq_type (PyVal.vBool true) = some "INT64"
    ∧ (update_bigquery_records ⟨"proj", "ds"⟩ "t" [("flag", PyVal.vBool true)] "1=1"
        (fun _ => JobOutcome.ok [] 0)).request
      = some ⟨"UPDATE `proj.ds.t` SET `flag` = @p_set_val_0 WHERE 1=1",
          [⟨"p_set_val_0", "INT64", PyVal.vBool true⟩]⟩
    ∧ (∀ v : PyVal, infer_bq_type v ≠ some "BOOL") := by
  refine ⟨rfl, rfl, fun v => ?_⟩
  cases v <;> simp [infer_bq_type, is_str, is_bytes, is_int, is_float, is_bool,
    is_datetime, is_date, is_time, is_decimal]

/-- C3: for a non-empty `set_values` whose values all have supported types,
the submitted query is exactly
`UPDATE <backtick><project>.<dataset>.<table_id><backtick> SET
<backtick>col<backtick> = @p_set_val_0, ... WHERE <where_clause>` — the
WHERE clause concatenated verbatim and unmodified — and every value travels
only inside the bound typed parameter list (`setParams`), never in the SQL
text: the SQL text (`setClauses`) depends only on the column names. -/
theorem C3_update_sql_shape (cfg : ModuleConfig) (table_id : String)
    (set_values : List (String × PyVal)) (where_clause : String)
    (api : UpdateCall → JobOutcome)
    (hne : set_values ≠ [])
    (hsup : ∀ kv ∈ set_values, (infer_bq_type kv.2).isSome) :
    (update_bigquery_records cfg table_id set_values where_clause api).request =
      some ⟨"UPDATE `" ++ cfg.project ++ "." ++ cfg.dataset ++ "." ++ table_id
          ++ "` SET " ++ String.intercalate ", " (setClauses 0 set_values)
          ++ " WHERE " ++ where_clause,
        setParams 0 set_values⟩
    ∧ ∀ other_values : List (String × PyVal),
        set_values.map Prod.fst = other_values.map Prod.fst →
        setClauses 0 set_values = setClauses 0 other_values := by
  constructor
  · have hb := buildSetParamsAux_ok set_values 0 hsup
    have hne' : set_values.isEmpty = false := by
      cases set_values with
      | nil => exact absurd rfl hne
      | cons hd tl => rfl
    exact update_request_of_ok cfg table_id set_values where_clause api _ _ hne' hb
  · intro other_values hkeys
    exact setClauses_keys set_values other_values hkeys 0

/-- C3 (witness): the theorem applied at a concrete input, with the
resulting SQL text and parameter list fully evaluated. -/
theorem C3_witness :
    (update_bigquery_records ⟨"proj", "ds"⟩ "t"
        [("a", PyVal.vStr "x"), ("b", PyVal.vInt 2)] "id = 3"
        (fun _ => JobOutcome.ok [] 5)).request
      = some ⟨"UPDATE `proj.ds.t` SET `a` = @p_set_val_0, `b` = @p_set_val_1 WHERE id = 3",
          [⟨"p_set_val_0", "STRING", PyVal.vStr "x"⟩,
           ⟨"p_set_val_1", "INT64", PyVal.vInt 2⟩]⟩ :=
  ((C3_update_sql_shape ⟨"proj", "ds"⟩ "t"
      [("a", PyVal.vStr "x"), ("b", PyVal.vInt 2)] "id = 3"
      (fun _ => JobOutcome.ok [] 5) (by decide)
      (fun kv hkv => by fin_cases hkv <;> rfl)).1).trans rfl

/-- C4: over a successful query, every date and datetime result value is
returned as its ISO-8601 string and every Decimal as its decimal text;
nothing of those three native types survives in the output, and a value of
any other type is returned unchanged. -/
theorem C4_query_result_normalization (cfg : ModuleConfig) (query : String)
    (rows : List Row) :
    run_bigquery_sql_query cfg query (.ok rows)
        = rows.map (fun row => row.map (fun kv => (kv.1, processQueryValue kv.2)))
    ∧ (∀ d, processQueryValue (PyVal.vDate d) = PyVal.vStr d.isoformat)
    ∧ (∀ dt, processQueryValue (PyVal.vDatetime dt) = PyVal.vStr dt.isoformat)
    ∧ (∀ s, processQueryValue (PyVal.vDecimal s) = PyVal.vStr s)
    ∧ (∀ v, isDateDatetimeOrDecimal (processQueryValue v) = false)
    ∧ (∀ v, isDateDatetimeOrDecimal v = false → processQueryValue v = v) := by
  refine ⟨ifEmptyElse _, fun d => rfl, fun dt => rfl, fun s => rfl,
    fun v => by cases v <;> rfl, fun v h => ?_⟩
  cases v <;> first | rfl | simp [isDateDatetimeOrDecimal] at h

/-- C4 (witness): the theorem applied at a concrete input. -/
theorem C4_witness :
    run_bigquery_sql_query ⟨"proj", "ds"⟩ "SELECT 1"
        (.ok [[("a", PyVal.vInt 3)]]) = [[("a", PyVal.vInt 3)]]
    ∧ processQueryValue (PyVal.vInt 3) = PyVal.vInt 3 :=
  ⟨(C4_query_result_normalization ⟨"proj", "ds"⟩ "SELECT 1" [[("a", PyVal.vInt 3)]]).1.trans rfl,
   (C4_query_result_normalization ⟨"proj", "ds"⟩ "SELECT 1" []).2.2.2.2.2
     (PyVal.vInt 3) rfl⟩

/-- C5: the three read-oriented tools cannot propagate an exception (their
embedding is total into plain lists); whenever the underlying warehouse call
raises, each returns `[]`, which is exactly what it returns on a
legitimately empty result — the two are indistinguishable. -/
theorem C5_read_tools_swallow_exceptions (cfg : ModuleConfig)
    (e table_id query : String) :
    list_dataset_tables cfg (.error e) = []
    ∧ get_bigquery_table_schema cfg table_id (.error e) = []
    ∧ run_bigquery_sql_query cfg query (.error e) = []
    ∧ list_dataset_tables cfg (.error e) = list_dataset_tables cfg (.ok [])
    ∧ get_bigquery_table_schema cfg table_id (.error e)
        = get_bigquery_table_schema cfg table_id (.ok [])
    ∧ run_bigquery_sql_query cfg query (.error e)
        = run_bigquery_sql_query cfg query (.ok []) :=
  ⟨rfl, rfl, rfl, rfl, rfl, rfl⟩

/-- C6: an empty `set_values` makes `update_bigquery_records` return the
literal error string, with no exception raised (`returned`, not `raised`)
and no query issued (`request = none`); the client was already constructed
(line 191 precedes the check). -/
theorem C6_empty_set_values (cfg : ModuleConfig) (table_id where_clause : String)
    (api : UpdateCall → JobOutcome) :
    update_bigquery_records cfg table_id [] where_clause api =
      ⟨true, none, PyResult.returned "Error: set_values dictionary cannot be empty."⟩ :=
  rfl

/-- C7: an empty `rows` list makes `insert_bigquery_rows` return the literal
error string before any client is constructed (`clientCreated = false`) and
without any network call (`request = none`). -/
theorem C7_empty_rows (cfg : ModuleConfig) (table_id : String)
    (api : List Row → InsertOutcome) :
    insert_bigquery_rows cfg table_id [] api =
      ⟨false, none, PyResult.returned "Error: 'rows' list cannot be empty."⟩ :=
  rfl

/-- C8: a `where_clause` that is empty or all-whitespace makes
`delete_bigquery_records` return the literal safety-refusal string before
any client is constructed (`clientCreated = false`) and without any network
call (`request = none`). -/
theorem C8_blank_where_clause (cfg : ModuleConfig) (table_id where_clause : String)
    (api : String → JobOutcome)
    (h : where_clause.data.all isPySpace = true) :
    delete_bigquery_records cfg table_id where_clause api =
      ⟨false, none, PyResult.returned
        ("Error: where_clause cannot be empty. To delete all rows, "
          ++ "explicitly provide a condition like '1=1' (use with extreme caution).")⟩ := by
  have h1 : pyStrip where_clause = "" := by
    unfold pyStrip
    rw [dropWhile_of_all _ h]
    rfl
  unfold delete_bigquery_records
  simp [h1]

/-- C8 (witness): the theorem applied at a concrete all-whitespace clause. -/
theorem C8_witness :
    delete_bigquery_records ⟨"proj", "ds"⟩ "t" "  " (fun _ => JobOutcome.ok [] 0) =
      ⟨false, none, PyResult.returned
        ("Error: where_clause cannot be empty. To delete all rows, "
          ++ "explicitly provide a condition like '1=1' (use with extreme caution).")⟩ :=
  C8_blank_where_clause ⟨"proj", "ds"⟩ "t" "  " (fun _ => JobOutcome.ok [] 0) (by decide)

/-- C9: the time-type asymmetry between the two normalizers:
`insert_bigquery_rows` sends a `datetime.time` value as its ISO string,
while `run_bigquery_sql_query` returns a `datetime.time` result value
unchanged as a native time object — only date, datetime and Decimal query
results are converted. -/
theorem C9_time_asymmetry (cfg : ModuleConfig) (table_id query key : String)
    (t : PyTime) (api : List Row → InsertOutcome) :
    run_bigquery_sql_query cfg query (.ok [[(key, PyVal.vTime t)]])
        = [[(key, PyVal.vTime t)]]
    ∧ (insert_bigquery_rows cfg table_id [[(key, PyVal.vTime t)]] api).request
        = some [[(key, PyVal.vStr t.isoformat)]]
    ∧ (∀ v, processQueryValue v ≠ v → isDateDatetimeOrDecimal v = true) :=
  ⟨rfl,
   (insert_request_nonempty cfg table_id [[(key, PyVal.vTime t)]] api rfl).trans rfl,
   fun v h => by cases v <;> first | rfl | exact absurd rfl h⟩

/-- C9 (witness): the theorem applied at a concrete input. -/
theorem C9_witness :
    run_bigquery_sql_query ⟨"proj", "ds"⟩ "q" (.ok [[("t", PyVal.vTime ⟨1, 2, 3⟩)]])
        = [[("t", PyVal.vTime ⟨1, 2, 3⟩)]]
    ∧ isDateDatetimeOrDecimal (PyVal.vDate ⟨2024, 3, 5⟩) = true :=
  ⟨(C9_time_asymmetry ⟨"proj", "ds"⟩ "tbl" "q" "t" ⟨1, 2, 3⟩ (fun _ => InsertOutcome.ok [])).1,
   (C9_time_asymmetry ⟨"proj", "ds"⟩ "tbl" "q" "t" ⟨1, 2, 3⟩ (fun _ => InsertOutcome.ok [])).2.2
     (PyVal.vDate ⟨2024, 3, 5⟩) (by decide)⟩

/-- C10: module load raises `ValueError` (the `.error` outcome) whenever the
project or dataset environment variable is unset (`none`) or empty
(`some ""`); and every successfully produced `ModuleConfig` — the only way
any tool gets its identifiers — carries two non-empty identifiers. -/
theorem C10_env_check_at_load (env : String → Option String) :
    ((env "DEFAULT_PROJECT_ID" = none ∨ env "DEFAULT_PROJECT_ID" = some ""
        ∨ env "DEFAULT_DATASET_ID" = none ∨ env "DEFAULT_DATASET_ID" = some "") →
      moduleInit env = .error
        "DEFAULT_PROJECT_ID and DEFAULT_DATASET_ID must be set in the .env file or environment.")
    ∧ ∀ cfg, moduleInit env = .ok cfg → cfg.project ≠ "" ∧ cfg.dataset ≠ "" := by
  constructor
  · intro h
    unfold moduleInit
    rcases h with h | h | h | h <;> simp [h, pyTruthy]
  · intro cfg hcfg
    simp only [moduleInit] at hcfg
    split at hcfg
    · exact absurd hcfg (by simp)
    · rename_i hcond
      simp only [Except.ok.injEq] at hcfg
      subst hcfg
      simp only [Bool.or_eq_true, Bool.not_eq_true'] at hcond
      push_neg at hcond
      simp only [Bool.not_eq_false] at hcond
      exact ⟨pyTruthy_getD _ hcond.1, pyTruthy_getD _ hcond.2⟩

/-- C10 (witness): the theorem applied to the empty environment. -/
theorem C10_witness :
    moduleInit (fun _ => none) = .error
      "DEFAULT_PROJECT_ID and DEFAULT_DATASET_ID must be set in the .env file or environment." :=
  (C10_env_check_at_load (fun _ => none)).1 (Or.inl rfl)
